import Mathlib

/-!
Verification of the A2A travel-booking demo (src/TaskExamples/server.py).

The repository consists of a pure business-logic class `TravelAgent` (method
`process`), an executor `TravelAgentExecutor` (methods `execute` and `cancel`)
that drives the a2a-sdk `TaskUpdater` event interface, and the client demo.
The protocol engine itself (task store, state machine, terminal-state checks)
lives in the third-party a2a-sdk package, not in this repository; where a
claim depends on it, the engine is modelled from the specification and the
definition says so in its doc comment.

Strings are embedded as Lean `String`; a Python dict holding booking details
is embedded as an association list `List (String × String)`; the sequence of
calls the executor makes on its `TaskUpdater` is embedded as a list of
`Event`s, in program order.
-/

/-- Python substring check at the character level: `isPrefixChars sub s`
is true when `sub` is an initial segment of `s`. -/
def isPrefixChars : List Char → List Char → Bool
  | [], _ => true
  | _ :: _, [] => false
  | a :: as, b :: bs => a == b && isPrefixChars as bs

/-- Occurrence of `sub` anywhere in `s`, as the Python operator `sub in s`. -/
def containsSub (sub : List Char) : List Char → Bool
  | [] => isPrefixChars sub []
  | c :: rest => isPrefixChars sub (c :: rest) || containsSub sub rest

/-- The Python membership test `sub in s` on strings. -/
def strContains (s sub : String) : Bool :=
  containsSub sub.toList s.toList

/-- Python `str.lower()`, character-wise ASCII lowering (the inputs the
program handles are ASCII). -/
def strLower (s : String) : String :=
  String.mk (s.toList.map Char.toLower)

/-- Leading and trailing whitespace removal on a character list. -/
def trimChars (l : List Char) : List Char :=
  ((l.dropWhile Char.isWhitespace).reverse.dropWhile Char.isWhitespace).reverse

/-- Python `str.strip()` with no argument: removes leading and trailing
whitespace. -/
def strStrip (s : String) : String :=
  String.mk (trimChars s.toList)

/-- The dict returned by `TravelAgent.process`: keys `response`,
`needs_input`, `booking` (the booking itself is a dict or `None`). -/
structure ProcResult where
  response : String
  needs_input : Bool
  booking : Option (List (String × String))
deriving DecidableEq, Repr

/-- The hotel-booking dict literal from `TravelAgent.process`. -/
def hotelBooking : List (String × String) :=
  [("type", "Hotel"),
   ("hotel", "Le Ciel Paris Airport"),
   ("location", "Near Charles de Gaulle Airport, Paris"),
   ("check_in", "June 15, 2026"),
   ("check_out", "June 22, 2026"),
   ("room", "Deluxe King"),
   ("status", "CONFIRMED")]

/-- The flight-booking dict literal from `TravelAgent.process`; its
`departure` entry is `user_input.strip()`. -/
def flightBooking (user_input : String) : List (String × String) :=
  [("type", "Flight"),
   ("destination", "Paris"),
   ("departure", strStrip user_input),
   ("airline", "SkyHigh Airlines"),
   ("flight", "SH-1042"),
   ("status", "CONFIRMED")]

/-- The return value of the hotel branch of `TravelAgent.process`. -/
def hotelResult : ProcResult :=
  { response := "Your hotel has been booked! Here are the details:",
    needs_input := false,
    booking := some hotelBooking }

/-- The return value of the second flight turn of `TravelAgent.process`
(dates detected in the input). -/
def flightResult (user_input : String) : ProcResult :=
  { response := "Your flight has been booked! Here are the details:",
    needs_input := false,
    booking := some (flightBooking user_input) }

/-- The return value of the first flight turn of `TravelAgent.process`
(no dates yet): the agent asks for travel dates. -/
def askDatesResult : ProcResult :=
  { response := "I\x27d be happy to help you book a flight! Could you please provide your preferred travel dates? (e.g. \x27June 15 - June 22, 2026\x27)",
    needs_input := true,
    booking := none }

/-- The date-marker substrings `TravelAgent.process` scans for. -/
def dateTokens : List String :=
  ["jan", "feb", "mar", "apr", "may", "jun",
   "jul", "aug", "sep", "oct", "nov", "dec",
   "2025", "2026", "2027"]

/-- `TravelAgent.process(user_input, context_id)` from server.py: lowers the
input, branches on the substring `hotel`, then on any date marker, and
otherwise asks for dates. -/
def TravelAgent.process (user_input : String) (context_id : String) : ProcResult :=
  let text := strLower user_input
  if strContains text "hotel" then
    hotelResult
  else if dateTokens.any (fun d => strContains text d) then
    flightResult user_input
  else
    askDatesResult

/-- One call the executor makes on its `TaskUpdater` (one event pushed to the
event queue). `fail` and `cancel` are the remaining updater transitions the
spec names; `TravelAgentExecutor.execute` never emits them, and
`TravelAgentExecutor.cancel` emits `cancel`. -/
inductive Event where
  | submit
  | startWork
  | requiresInput (msg : String)
  | addArtifact (text : String)
  | complete (msg : String)
  | fail (msg : String)
  | cancel
deriving DecidableEq, Repr

/-- Modelled from the spec (section 3 and the section 4.2 table): which pushed
events carry final=true. Status updates entering INPUT_REQUIRED or a terminal
state are final; submit, startWork and artifact events are not. -/
def Event.isFinal : Event → Bool
  | .requiresInput _ => true
  | .complete _ => true
  | .fail _ => true
  | .cancel => true
  | .submit => false
  | .startWork => false
  | .addArtifact _ => false

/-- Whether the event is an artifact-update event. -/
def Event.isArtifactEvent : Event → Bool
  | .addArtifact _ => true
  | _ => false

/-- Whether the event is a fail transition. -/
def Event.isFailEvent : Event → Bool
  | .fail _ => true
  | _ => false

/-- Whether the event is a requires-input transition. -/
def Event.isRequiresInputEvent : Event → Bool
  | .requiresInput _ => true
  | _ => false

/-- The task lifecycle states of the spec (section 4.2). -/
inductive TaskState where
  | submitted
  | working
  | input_required
  | completed
  | canceled
  | failed
deriving DecidableEq, Repr

/-- COMPLETED, CANCELED and FAILED are the terminal states. -/
def TaskState.isTerminal : TaskState → Bool
  | .completed => true
  | .canceled => true
  | .failed => true
  | _ => false

/-- The state a status event announces (artifact events announce none). -/
def Event.targetState : Event → Option TaskState
  | .submit => some .submitted
  | .startWork => some .working
  | .requiresInput _ => some .input_required
  | .complete _ => some .completed
  | .fail _ => some .failed
  | .cancel => some .canceled
  | .addArtifact _ => none

/-- The sequence of states a list of pushed events drives the task through. -/
def statesOf (events : List Event) : List TaskState :=
  events.filterMap Event.targetState

/-- The artifact text built in the completion branch of
`TravelAgentExecutor.execute`. Python reads the dict keys with `[]`, which
raises KeyError on a missing key: a missing key yields `none`. The branch
condition is the Python test `booking.get("type") == "Hotel"`. -/
def renderBooking (booking : List (String × String)) : Option String :=
  if booking.lookup "type" == some "Hotel" then
    match booking.lookup "type", booking.lookup "hotel", booking.lookup "location",
          booking.lookup "check_in", booking.lookup "check_out",
          booking.lookup "room", booking.lookup "status" with
    | some ty, some ho, some lo, some ci, some co, some rm, some st =>
      some ("Booking Confirmation\n====================\nType        : " ++ ty
        ++ "\nHotel       : " ++ ho
        ++ "\nLocation    : " ++ lo
        ++ "\nCheck-in    : " ++ ci
        ++ "\nCheck-out   : " ++ co
        ++ "\nRoom        : " ++ rm
        ++ "\nStatus      : " ++ st)
    | _, _, _, _, _, _, _ => none
  else
    match booking.lookup "type", booking.lookup "destination", booking.lookup "departure",
          booking.lookup "airline", booking.lookup "flight", booking.lookup "status" with
    | some ty, some de, some dp, some al, some fl, some st =>
      some ("Booking Confirmation\n====================\nType        : " ++ ty
        ++ "\nDestination : " ++ de
        ++ "\nDates       : " ++ dp
        ++ "\nAirline     : " ++ al
        ++ "\nFlight      : " ++ fl
        ++ "\nStatus      : " ++ st)
    | _, _, _, _, _, _ => none

/-- Events `execute` pushes before running the business logic: `submit` only
when there is no current task, then `start_work`. -/
def preEvents (hasCurrentTask : Bool) : List Event :=
  (if hasCurrentTask then [] else [Event.submit]) ++ [Event.startWork]

/-- The outcome of one `TravelAgentExecutor.execute` invocation: the events
pushed to the event queue, in program order, and the exception propagated out
of `execute`, if any. -/
structure ExecResult where
  events : List Event
  error : Option String
deriving DecidableEq, Repr

/-- The tail of `TravelAgentExecutor.execute` from the `await
self.agent.process(...)` call on, as a function of that call outcome.
`execute` wraps the call in no try/except, so an exception from the business
logic propagates unchanged after `preEvents` were already pushed; a normal
result is dispatched on `needs_input`, and the completion branch reads
`booking` (AttributeError on `None`, KeyError on a missing key). -/
def executeOnOutcome (hasCurrentTask : Bool) (outcome : Except String ProcResult) : ExecResult :=
  let pre := preEvents hasCurrentTask
  match outcome with
  | .error e => { events := pre, error := some e }
  | .ok result =>
    if result.needs_input then
      { events := pre ++ [Event.requiresInput result.response], error := none }
    else
      match result.booking with
      | none => { events := pre, error := some "AttributeError" }
      | some booking =>
        match renderBooking booking with
        | none => { events := pre, error := some "KeyError" }
        | some artifact_text =>
          { events := pre ++ [Event.addArtifact artifact_text,
                              Event.complete result.response],
            error := none }

/-- `TravelAgentExecutor.execute`: pushes submit (new task only) and
start_work, runs `TravelAgent.process`, then requires_input, or add_artifact
followed by complete. -/
def TravelAgentExecutor.execute (user_input : String) (hasCurrentTask : Bool)
    (context_id : String) : ExecResult :=
  executeOnOutcome hasCurrentTask (Except.ok (TravelAgent.process user_input context_id))

/-- `TravelAgentExecutor.cancel`: unconditionally calls `updater.cancel()`,
emitting one cancel event. -/
def TravelAgentExecutor.cancelEvents : List Event := [Event.cancel]

/-- Modelled from the spec (section 3): the task record kept by the engine
(the a2a-sdk task store, not under src/). Opaque task ids are modelled as
naturals; only freshness matters for the claims. Named TaskRecord because Task is taken by the Lean core library. -/
structure TaskRecord where
  task_id : Nat
  context_id : String
  state : TaskState
  status_message : Option String
  status_history : List TaskState
  artifacts : List String
deriving DecidableEq, Repr

/-- Modelled from the spec (section 7): the engine error taxonomy the claims
mention. -/
inductive EngineError where
  | TaskClosedError
  | NotFoundError
  | InvalidTransitionError
deriving DecidableEq, Repr

/-- Modelled from the spec (section 4.2 transition table): the target state
of each operation from each state; `none` means the transition is not listed.
SUBMITTED is entered only at creation, so the submit event has no entry. -/
def transitionTarget : Event → TaskState → Option TaskState
  | .startWork, .submitted => some .working
  | .startWork, .input_required => some .working
  | .requiresInput _, .working => some .input_required
  | .complete _, .working => some .completed
  | .cancel, .submitted => some .canceled
  | .cancel, .working => some .canceled
  | .cancel, .input_required => some .canceled
  | .fail _, .working => some .failed
  | _, _ => none

/-- The status message an event carries, if any. -/
def Event.message : Event → Option String
  | .requiresInput m => some m
  | .complete m => some m
  | .fail m => some m
  | _ => none

/-- Modelled from the spec (sections 4.1 and 4.2): `append`, the only
mutation entry point of the store (a2a-sdk, not under src/). A write against
a terminal task is rejected with TaskClosedError; a status transition not in
the table fails with InvalidTransitionError and leaves the task unchanged; a
legal transition appends the prior state to the history. -/
def applyEvent (t : TaskRecord) : Event → Except EngineError TaskRecord
  | .addArtifact txt =>
    if t.state.isTerminal then Except.error EngineError.TaskClosedError
    else Except.ok { t with artifacts := t.artifacts ++ [txt] }
  | e =>
    if t.state.isTerminal then Except.error EngineError.TaskClosedError
    else
      match transitionTarget e t.state with
      | none => Except.error EngineError.InvalidTransitionError
      | some s2 =>
        Except.ok { t with
          state := s2,
          status_message := e.message,
          status_history := t.status_history ++ [t.state] }

/-- Applies a list of pushed events to a task in order, stopping at the first
engine error. -/
def foldEvents (t : TaskRecord) : List Event → Except EngineError TaskRecord
  | [] => Except.ok t
  | e :: es =>
    match applyEvent t e with
    | Except.error err => Except.error err
    | Except.ok t2 => foldEvents t2 es

/-- Modelled from the spec (section 4.4, step 5): dispatch of an inbound
message that references an existing task (the a2a-sdk request handler, not
under src/). If the fetched task is terminal, dispatch fails with
TaskClosedError before `TravelAgentExecutor.execute` runs; otherwise the
executor runs with a current task and its pushed events are applied. The
result pairs the task after handling with the error, if any. -/
def handleExistingTask (t : TaskRecord) (user_input : String) : TaskRecord × Option EngineError :=
  if t.state.isTerminal then
    (t, some EngineError.TaskClosedError)
  else
    match foldEvents t (TravelAgentExecutor.execute user_input true t.context_id).events with
    | Except.error err => (t, some err)
    | Except.ok t2 => (t2, none)

/-- The acknowledgment of a cancelTask call: `noop` reports whether the call
was a no-op on an already terminal task. -/
inductive CancelOutcome where
  | ack (noop : Bool)
  | notFound
deriving DecidableEq, Repr

/-- Modelled from the spec (section 6): the cancelTask entry point of the
engine (a2a-sdk request handler, not under src/): a no-op reported as such
when the task is already terminal; otherwise the executor cancel runs and its
CANCELED transition is recorded. -/
def cancelTask (t : TaskRecord) : TaskRecord × CancelOutcome :=
  if t.state.isTerminal then
    (t, CancelOutcome.ack true)
  else
    match foldEvents t TravelAgentExecutor.cancelEvents with
    | Except.ok t2 => (t2, CancelOutcome.ack false)
    | Except.error _ => (t, CancelOutcome.ack true)

/-- Modelled from the spec (section 4.1): the store of the engine (a2a-sdk
InMemoryTaskStore, not under src/), with the next fresh task id. -/
structure Store where
  tasks : List TaskRecord
  next_id : Nat
deriving DecidableEq, Repr

/-- Modelled from the spec (section 4.1): `getOrCreate` with `task_id`
omitted: mints a fresh unique id, creates a Task in SUBMITTED registered
under the given context, and returns it. -/
def getOrCreate (s : Store) (context_id : String) : Store × TaskRecord :=
  let t : TaskRecord :=
    { task_id := s.next_id,
      context_id := context_id,
      state := TaskState.submitted,
      status_message := none,
      status_history := [],
      artifacts := [] }
  ({ tasks := s.tasks ++ [t], next_id := s.next_id + 1 }, t)

/-- The three possible results of `TravelAgent.process`: the hotel branch,
the flight branch with dates detected, and the ask-for-dates branch. -/
theorem process_cases (input ctx : String) :
    TravelAgent.process input ctx = hotelResult ∨
    TravelAgent.process input ctx = flightResult input ∨
    TravelAgent.process input ctx = askDatesResult := by
  unfold TravelAgent.process
  by_cases h1 : strContains (strLower input) "hotel" = true
  · simp [h1]
  · simp only [Bool.not_eq_true] at h1
    by_cases h2 : dateTokens.any (fun d => strContains (strLower input) d) = true
    · simp [h1, h2]
    · simp only [Bool.not_eq_true] at h2
      simp [h1, h2]

/-- The artifact text the completion branch builds for the hotel booking. -/
def hotelArtifactText : String :=
  "Booking Confirmation\n====================\nType        : Hotel\nHotel       : Le Ciel Paris Airport\nLocation    : Near Charles de Gaulle Airport, Paris\nCheck-in    : June 15, 2026\nCheck-out   : June 22, 2026\nRoom        : Deluxe King\nStatus      : CONFIRMED"

/-- The artifact text the completion branch builds for a flight booking made
from the given user input: the Dates line holds the stripped input. -/
def flightArtifactText (user_input : String) : String :=
  "Booking Confirmation\n====================\nType        : " ++ "Flight"
    ++ "\nDestination : " ++ "Paris"
    ++ "\nDates       : " ++ strStrip user_input
    ++ "\nAirline     : " ++ "SkyHigh Airlines"
    ++ "\nFlight      : " ++ "SH-1042"
    ++ "\nStatus      : " ++ "CONFIRMED"

set_option maxRecDepth 40000

/-- The hotel artifact text is what `renderBooking` yields on the hotel
booking dict. -/
theorem renderBooking_hotel : renderBooking hotelBooking = some hotelArtifactText := rfl

/-- The flight artifact text is what `renderBooking` yields on the flight
booking dict, for every user input. -/
theorem renderBooking_flight (user_input : String) :
    renderBooking (flightBooking user_input) = some (flightArtifactText user_input) := rfl

/-- The three possible results of one `TravelAgentExecutor.execute`
invocation, following the three results of `TravelAgent.process`. -/
theorem execute_cases (input ctx : String) (hasTask : Bool) :
    TravelAgentExecutor.execute input hasTask ctx =
      { events := preEvents hasTask ++ [Event.requiresInput askDatesResult.response],
        error := none } ∨
    TravelAgentExecutor.execute input hasTask ctx =
      { events := preEvents hasTask ++ [Event.addArtifact hotelArtifactText,
                                        Event.complete hotelResult.response],
        error := none } ∨
    TravelAgentExecutor.execute input hasTask ctx =
      { events := preEvents hasTask ++ [Event.addArtifact (flightArtifactText input),
                                        Event.complete (flightResult input).response],
        error := none } := by
  rcases process_cases input ctx with h | h | h
  · right; left
    unfold TravelAgentExecutor.execute executeOnOutcome
    rw [h]
    rfl
  · right; right
    unfold TravelAgentExecutor.execute executeOnOutcome
    rw [h]
    rfl
  · left
    unfold TravelAgentExecutor.execute executeOnOutcome
    rw [h]
    rfl

/-- No invocation of `TravelAgentExecutor.execute` on the shipped
`TravelAgent` propagates an exception. -/
theorem execute_error_none (input ctx : String) (hasTask : Bool) :
    (TravelAgentExecutor.execute input hasTask ctx).error = none := by
  rcases execute_cases input ctx hasTask with h | h | h <;> rw [h]

/-- Claim C1: on the message `Book a flight to Paris` with no task id,
`TravelAgent.process` asks for travel dates (needs_input true, booking None),
and `TravelAgentExecutor.execute` pushes submit, then start_work, then
requires_input with that response, driving the task through SUBMITTED,
WORKING, INPUT_REQUIRED. -/
theorem C1_flight_first_turn (ctx : String) :
    TravelAgent.process "Book a flight to Paris" ctx = askDatesResult ∧
    askDatesResult.needs_input = true ∧
    askDatesResult.booking = none ∧
    strContains (strLower askDatesResult.response) "travel dates" = true ∧
    (TravelAgentExecutor.execute "Book a flight to Paris" false ctx).events =
      [Event.submit, Event.startWork, Event.requiresInput askDatesResult.response] ∧
    statesOf (TravelAgentExecutor.execute "Book a flight to Paris" false ctx).events =
      [TaskState.submitted, TaskState.working, TaskState.input_required] :=
  ⟨rfl, rfl, rfl, by decide, rfl, rfl⟩

/-- Claim C2: on the follow-up message `June 15 - June 22, 2026` addressed to
the existing flight task, `TravelAgent.process` returns the flight booking
whose departure entry is the stripped input, and the executor pushes
start_work, exactly one add_artifact, and complete with the confirming
message, driving the task through WORKING, COMPLETED. -/
theorem C2_flight_second_turn (ctx : String) :
    TravelAgent.process "June 15 - June 22, 2026" ctx =
      flightResult "June 15 - June 22, 2026" ∧
    (TravelAgent.process "June 15 - June 22, 2026" ctx).needs_input = false ∧
    (flightBooking "June 15 - June 22, 2026").lookup "departure" =
      some "June 15 - June 22, 2026" ∧
    (TravelAgentExecutor.execute "June 15 - June 22, 2026" true ctx).events =
      [Event.startWork,
       Event.addArtifact (flightArtifactText "June 15 - June 22, 2026"),
       Event.complete "Your flight has been booked! Here are the details:"] ∧
    (TravelAgentExecutor.execute "June 15 - June 22, 2026" true ctx).events.countP
      (fun e => e.isArtifactEvent) = 1 ∧
    statesOf (TravelAgentExecutor.execute "June 15 - June 22, 2026" true ctx).events =
      [TaskState.working, TaskState.completed] :=
  ⟨rfl, rfl, rfl, rfl, rfl, rfl⟩

/-- Claim C3, counterexample: on a concrete error outcome of the business
logic, the dispatcher tail of `TravelAgentExecutor.execute` does not map the
error to a fail transition: it propagates the exception, pushes no fail
event, and leaves the last recorded state WORKING, which is not terminal. -/
theorem C3_counterexample_no_fail_mapping :
    (executeOnOutcome false (Except.error "boom")).error = some "boom" ∧
    (executeOnOutcome false (Except.error "boom")).events =
      [Event.submit, Event.startWork] ∧
    (executeOnOutcome false (Except.error "boom")).events.all
      (fun e => !e.isFailEvent) = true ∧
    (statesOf (executeOnOutcome false (Except.error "boom")).events).getLast? =
      some TaskState.working ∧
    TaskState.working.isTerminal = false :=
  ⟨rfl, rfl, by decide, rfl, rfl⟩

/-- Claim C3, amended: `TravelAgentExecutor.execute` contains no error
handling at all: on the shipped `TravelAgent` no invocation propagates an
exception and no invocation pushes a fail event, and had the business logic
raised, `execute` would propagate the exception unchanged with no fail
transition, leaving the last recorded state WORKING (non-terminal). -/
theorem C3_amended_error_propagates (input ctx e : String) (hasTask : Bool) :
    (TravelAgentExecutor.execute input hasTask ctx).error = none ∧
    (TravelAgentExecutor.execute input hasTask ctx).events.all
      (fun ev => !ev.isFailEvent) = true ∧
    (executeOnOutcome hasTask (Except.error e)).error = some e ∧
    (executeOnOutcome hasTask (Except.error e)).events.all
      (fun ev => !ev.isFailEvent) = true ∧
    (statesOf (executeOnOutcome hasTask (Except.error e)).events).getLast? =
      some TaskState.working := by
  refine ⟨execute_error_none input ctx hasTask, ?_, ?_, ?_, ?_⟩
  · rcases execute_cases input ctx hasTask with h | h | h <;> rw [h] <;> cases hasTask <;> rfl
  · cases hasTask <;> rfl
  · cases hasTask <;> rfl
  · cases hasTask <;> rfl

/-- Claim C4: in every invocation of `TravelAgentExecutor.execute`, the
pushed events are exactly submit (iff the task is newly created) then
start_work, followed by either one requires_input event or one add_artifact
event and one complete event; exactly one pushed event is final and it is the
last one. -/
theorem C4_event_order (input ctx : String) (hasTask : Bool) :
    (TravelAgentExecutor.execute input hasTask ctx).error = none ∧
    ((∃ m, (TravelAgentExecutor.execute input hasTask ctx).events =
        preEvents hasTask ++ [Event.requiresInput m]) ∨
     (∃ txt m, (TravelAgentExecutor.execute input hasTask ctx).events =
        preEvents hasTask ++ [Event.addArtifact txt, Event.complete m])) ∧
    (TravelAgentExecutor.execute input hasTask ctx).events.countP
      (fun e => e.isFinal) = 1 ∧
    (∃ last, (TravelAgentExecutor.execute input hasTask ctx).events.getLast? =
        some last ∧ last.isFinal = true) := by
  rcases execute_cases input ctx hasTask with h | h | h
  · exact ⟨by rw [h], Or.inl ⟨_, by rw [h]⟩,
      by rw [h]; cases hasTask <;> rfl,
      ⟨Event.requiresInput askDatesResult.response,
        by rw [h]; cases hasTask <;> rfl, rfl⟩⟩
  · exact ⟨by rw [h], Or.inr ⟨_, _, by rw [h]⟩,
      by rw [h]; cases hasTask <;> rfl,
      ⟨Event.complete hotelResult.response,
        by rw [h]; cases hasTask <;> rfl, rfl⟩⟩
  · exact ⟨by rw [h], Or.inr ⟨_, _, by rw [h]⟩,
      by rw [h]; cases hasTask <;> rfl,
      ⟨Event.complete (flightResult input).response,
        by rw [h]; cases hasTask <;> rfl, rfl⟩⟩

/-- A completed flight task, as left by the second turn of the demo; used as
the concrete terminal task of the witnesses. -/
def demoFlightTask : TaskRecord :=
  { task_id := 0,
    context_id := "ctx-1",
    state := TaskState.completed,
    status_message := some "Your flight has been booked! Here are the details:",
    status_history := [TaskState.submitted, TaskState.working,
                       TaskState.input_required, TaskState.working],
    artifacts := [flightArtifactText "June 15 - June 22, 2026"] }

/-- A store holding the completed flight task, with one id already minted. -/
def demoStore : Store := { tasks := [demoFlightTask], next_id := 1 }

/-- Claim C5: a message whose lowered text holds the substring `hotel`, sent
with no task id, yields a brand-new task: the minted id differs from every
task already in the store and the context id is the one given; the hotel
branch of `TravelAgent.process` wins (needs_input false, the fixed hotel
booking), and the executor pushes submit, start_work, one hotel artifact and
complete — never requires_input. -/
theorem C5_hotel_new_task (s : Store) (input ctx : String)
    (hfresh : ∀ u ∈ s.tasks, u.task_id < s.next_id)
    (hhotel : strContains (strLower input) "hotel" = true) :
    (getOrCreate s ctx).2.context_id = ctx ∧
    (getOrCreate s ctx).2.state = TaskState.submitted ∧
    (∀ u ∈ s.tasks, u.task_id ≠ (getOrCreate s ctx).2.task_id) ∧
    TravelAgent.process input ctx = hotelResult ∧
    (TravelAgent.process input ctx).needs_input = false ∧
    (TravelAgentExecutor.execute input false ctx).events =
      [Event.submit, Event.startWork, Event.addArtifact hotelArtifactText,
       Event.complete hotelResult.response] ∧
    (TravelAgentExecutor.execute input false ctx).events.all
      (fun e => !e.isRequiresInputEvent) = true := by
  have hproc : TravelAgent.process input ctx = hotelResult := by
    unfold TravelAgent.process
    simp [hhotel]
  have hexec :
      (TravelAgentExecutor.execute input false ctx).events =
        [Event.submit, Event.startWork, Event.addArtifact hotelArtifactText,
         Event.complete hotelResult.response] := by
    unfold TravelAgentExecutor.execute executeOnOutcome
    rw [hproc]
    rfl
  refine ⟨rfl, rfl, ?_, hproc, by rw [hproc]; rfl, hexec, by rw [hexec]; rfl⟩
  intro u hu
  have hlt := hfresh u hu
  simp only [getOrCreate]
  omega

/-- Witness for claim C5, at the demo store and the hotel message of the
client demo. -/
theorem C5_hotel_new_task_witness :
    ((∀ u ∈ demoStore.tasks, u.task_id < demoStore.next_id) ∧
     strContains (strLower "Book a hotel near the airport in Paris") "hotel" = true) ∧
    ((getOrCreate demoStore "ctx-1").2.context_id = "ctx-1" ∧
     (getOrCreate demoStore "ctx-1").2.state = TaskState.submitted ∧
     (∀ u ∈ demoStore.tasks, u.task_id ≠ (getOrCreate demoStore "ctx-1").2.task_id) ∧
     TravelAgent.process "Book a hotel near the airport in Paris" "ctx-1" = hotelResult ∧
     (TravelAgent.process "Book a hotel near the airport in Paris" "ctx-1").needs_input = false ∧
     (TravelAgentExecutor.execute "Book a hotel near the airport in Paris" false "ctx-1").events =
       [Event.submit, Event.startWork, Event.addArtifact hotelArtifactText,
        Event.complete hotelResult.response] ∧
     (TravelAgentExecutor.execute "Book a hotel near the airport in Paris" false "ctx-1").events.all
       (fun e => !e.isRequiresInputEvent) = true) :=
  ⟨⟨by decide, by decide⟩,
    C5_hotel_new_task demoStore "Book a hotel near the airport in Paris" "ctx-1"
      (by decide) (by decide)⟩

/-- Claim C6: a message referencing a task already in a terminal state is
rejected by dispatch with TaskClosedError, with the task record — status,
history and artifacts — returned unchanged, and the engine refuses to apply
start_work to a terminal task. -/
theorem C6_terminal_task_closed (t : TaskRecord) (input : String)
    (h : t.state.isTerminal = true) :
    handleExistingTask t input = (t, some EngineError.TaskClosedError) ∧
    applyEvent t Event.startWork = Except.error EngineError.TaskClosedError := by
  constructor
  · simp [handleExistingTask, h]
  · simp [applyEvent, h]

/-- Witness for claim C6, at the completed demo flight task. -/
theorem C6_terminal_task_closed_witness :
    demoFlightTask.state.isTerminal = true ∧
    (handleExistingTask demoFlightTask "June 15 - June 22, 2026" =
       (demoFlightTask, some EngineError.TaskClosedError) ∧
     applyEvent demoFlightTask Event.startWork =
       Except.error EngineError.TaskClosedError) :=
  ⟨rfl, C6_terminal_task_closed demoFlightTask "June 15 - June 22, 2026" rfl⟩

/-- Claim C7: cancelTask on a task already terminal is a no-op acknowledged
as such, the task unchanged; and the unconditional cancel event emitted by
`TravelAgentExecutor.cancel` cannot record a CANCELED transition on it, since
the engine rejects the write with TaskClosedError. -/
theorem C7_cancel_terminal_noop (t : TaskRecord) (h : t.state.isTerminal = true) :
    cancelTask t = (t, CancelOutcome.ack true) ∧
    foldEvents t TravelAgentExecutor.cancelEvents =
      Except.error EngineError.TaskClosedError := by
  constructor
  · simp [cancelTask, h]
  · simp [TravelAgentExecutor.cancelEvents, foldEvents, applyEvent, h]

/-- Witness for claim C7, at the completed demo flight task. -/
theorem C7_cancel_terminal_noop_witness :
    demoFlightTask.state.isTerminal = true ∧
    (cancelTask demoFlightTask = (demoFlightTask, CancelOutcome.ack true) ∧
     foldEvents demoFlightTask TravelAgentExecutor.cancelEvents =
       Except.error EngineError.TaskClosedError) :=
  ⟨rfl, C7_cancel_terminal_noop demoFlightTask rfl⟩

/-- The booking keys the hotel branch of the artifact formatting reads. -/
def hotelKeys : List String :=
  ["hotel", "location", "check_in", "check_out", "room", "status"]

/-- The booking keys the flight branch of the artifact formatting reads. -/
def flightKeys : List String :=
  ["destination", "departure", "airline", "flight", "status"]

/-- The key discipline claim C8 states of a booking dict: the key `type` is
present and every key of the branch selected on it is present. -/
def requiredKeysPresent (b : List (String × String)) : Bool :=
  (b.lookup "type").isSome &&
  (if b.lookup "type" == some "Hotel" then
    hotelKeys.all (fun k => (b.lookup k).isSome)
  else
    flightKeys.all (fun k => (b.lookup k).isSome))

/-- Claim C8: whenever `TravelAgent.process` reports needs_input false, its
booking is a present dict holding the key `type` and every key the matching
artifact-formatting branch of `execute` reads, so the completion branch never
fails on a None booking or a missing key, and no invocation of `execute`
propagates an exception. -/
theorem C8_completion_branch_safe (input ctx : String) (hasTask : Bool)
    (h : (TravelAgent.process input ctx).needs_input = false) :
    (∃ b, (TravelAgent.process input ctx).booking = some b ∧
      requiredKeysPresent b = true ∧ (renderBooking b).isSome = true) ∧
    (TravelAgentExecutor.execute input hasTask ctx).error = none := by
  refine ⟨?_, execute_error_none input ctx hasTask⟩
  rcases process_cases input ctx with hp | hp | hp
  · exact ⟨hotelBooking, by rw [hp]; rfl, by decide, rfl⟩
  · exact ⟨flightBooking input, by rw [hp]; rfl, rfl, rfl⟩
  · rw [hp] at h
    exact absurd h (by decide)

/-- Witness for claim C8, at the hotel message with no current task. -/
theorem C8_completion_branch_safe_witness :
    (TravelAgent.process "Book a hotel" "c1").needs_input = false ∧
    ((∃ b, (TravelAgent.process "Book a hotel" "c1").booking = some b ∧
       requiredKeysPresent b = true ∧ (renderBooking b).isSome = true) ∧
     (TravelAgentExecutor.execute "Book a hotel" false "c1").error = none) :=
  ⟨rfl, C8_completion_branch_safe "Book a hotel" "c1" false rfl⟩

/-- Claim C9: the input `Book a flight to Marseille` carries no travel date,
yet its lowered text holds the month marker `mar`, so `TravelAgent.process`
returns the flight booking with the whole stripped input as its departure
entry, and the executor completes the task in a single turn, never asking for
dates. -/
theorem C9_marseille_single_turn (ctx : String) :
    strContains (strLower "Book a flight to Marseille") "mar" = true ∧
    TravelAgent.process "Book a flight to Marseille" ctx =
      flightResult "Book a flight to Marseille" ∧
    (TravelAgent.process "Book a flight to Marseille" ctx).needs_input = false ∧
    (flightBooking "Book a flight to Marseille").lookup "departure" =
      some "Book a flight to Marseille" ∧
    statesOf (TravelAgentExecutor.execute "Book a flight to Marseille" false ctx).events =
      [TaskState.submitted, TaskState.working, TaskState.completed] ∧
    (TravelAgentExecutor.execute "Book a flight to Marseille" false ctx).events.all
      (fun e => !e.isRequiresInputEvent) = true :=
  ⟨by decide, rfl, rfl, rfl, rfl, rfl⟩

/-- Claim C10: `TravelAgent.process` is a function of its input text alone:
two runs differing only in the context id return the same result. -/
theorem C10_context_noninterference (input c1 c2 : String) :
    TravelAgent.process input c1 = TravelAgent.process input c2 := rfl
